import Mathlib

/-!
Verification of the study-guardian backend's aggregation and analytics logic.

The JavaScript code is shallowly embedded in Lean: JS numbers are modelled as
rationals (all quantities involved are exact decimal computations), JS
`Math.round` as floor (x + 1/2), `Math.min`/`Math.max` as `min`/`max`, and the
imperative accumulation loops as list folds / structural recursions.

Sections:
* nlpService.js - `_calculateBlinkCompliance`, `calculateFinalMetrics`
* models/Metric.js - `getSessionSummary`, `detectAnomalies`
* routes/analytics.js - dashboard streak, productivity score
* routes/metrics (summary handler) and routes/sessions.js (end-session handler)
-/

/-- JS `Math.round`: rounds half-up (toward positive infinity). -/
def jround (q : ℚ) : ℤ := ⌊q + 1/2⌋

/-! ### nlpService.js : data model

A webcam interaction's `data` payload, with the fields read by
`calculateFinalMetrics` (`lookingAtScreen`, `postureScore`, `blinkRate`,
`hasPhone`).  `postureScore`/`blinkRate` absent in JS is `|| 0`-defaulted,
which coincides with storing `0`. -/
structure WebcamData where
  lookingAtScreen : Bool
  postureScore : ℚ
  blinkRate : ℚ
  hasPhone : Bool
deriving DecidableEq

/-- An entry of `session.interactions` (interactionSchema in models/Session.js);
only the `type` tag and, for webcam entries, the `data` payload are relevant
to the aggregation code. All non-webcam, non-highlight, non-page_turn types
are collapsed into `other`. -/
inductive Interaction where
  | webcam (data : WebcamData)
  | highlight
  | page_turn
  | other
deriving DecidableEq

/-- `interactions.filter(i => i.type === 'webcam')` followed by reading
`metric.data` on each element. -/
def webcamEntries (l : List Interaction) : List WebcamData :=
  l.filterMap fun i =>
    match i with
    | .webcam d => some d
    | _ => none

/-- The session document fields read by `calculateFinalMetrics`
(models/Session.js; `duration_seconds` defaults to 0 via `|| 0`). -/
structure SessionRecord where
  interactions : List Interaction
  duration_seconds : Option ℤ
deriving DecidableEq

/-- The aggregate object returned by `calculateFinalMetrics`. `avgPostureScore`
and `totalHighlights` are `none` in the empty-sample early return, where the
JS object omits those keys. The page-time analytics fields (computed by a
session schema method, not by the aggregation loop) are not modelled. -/
structure FinalMetrics where
  engagementScore : ℤ
  attentionRate : ℤ
  avgPostureScore : Option ℤ
  avgBlinkRate : ℤ
  distractionCount : ℕ
  durationSeconds : ℤ
  totalMetricsRecorded : ℕ
  totalHighlights : Option ℕ
deriving DecidableEq

/-- Accumulator of the `webcamMetrics.forEach` loop in
`calculateFinalMetrics`. -/
structure AggState where
  focusedCount : ℕ
  postureScoreSum : ℚ
  totalBlinkRateSum : ℚ
  distractionCount : ℕ
  phoneDetectedFlag : Bool
deriving DecidableEq

/-- One iteration of the `forEach` body:

    if (data.lookingAtScreen) focusedCount++;
    postureScoreSum += data.postureScore || 0;
    totalBlinkRateSum += data.blinkRate || 0;
    if (data.hasPhone && !phoneDetectedFlag) { distractionCount++; phoneDetectedFlag = true; }
    else if (!data.hasPhone) { phoneDetectedFlag = false; }
-/
def stepMetric (st : AggState) (d : WebcamData) : AggState where
  focusedCount := st.focusedCount + (if d.lookingAtScreen then 1 else 0)
  postureScoreSum := st.postureScoreSum + d.postureScore
  totalBlinkRateSum := st.totalBlinkRateSum + d.blinkRate
  distractionCount :=
    st.distractionCount + (if d.hasPhone && !st.phoneDetectedFlag then 1 else 0)
  phoneDetectedFlag :=
    if d.hasPhone && !st.phoneDetectedFlag then true
    else if !d.hasPhone then false
    else st.phoneDetectedFlag

def initAggState : AggState :=
  { focusedCount := 0, postureScoreSum := 0, totalBlinkRateSum := 0,
    distractionCount := 0, phoneDetectedFlag := false }

/-- `IDEAL_BLINK_RATE_MIN` in nlpService.js. -/
def IDEAL_BLINK_RATE_MIN : ℚ := 15

/-- `IDEAL_BLINK_RATE_MAX` in nlpService.js. -/
def IDEAL_BLINK_RATE_MAX : ℚ := 25

/-- `_calculateBlinkCompliance(blinkRate)` from nlpService.js. -/
def calculateBlinkCompliance (blinkRate : ℚ) : ℚ :=
  if IDEAL_BLINK_RATE_MIN ≤ blinkRate ∧ blinkRate ≤ IDEAL_BLINK_RATE_MAX then 100
  else
    let distanceToIdeal :=
      min |blinkRate - IDEAL_BLINK_RATE_MIN| |blinkRate - IDEAL_BLINK_RATE_MAX|
    let penalty := min (distanceToIdeal / 50) 1
    max 0 (100 * (1 - penalty))

/-- `calculateFinalMetrics` from nlpService.js, as a pure function of the
fetched session document (the surrounding `Session.findById` and the
not-found early return are outside this model). Engagement weights are the
`ENGAGEMENT_WEIGHTS` constants 0.5 / 0.3 / 0.2. -/
def calculateFinalMetrics (session : SessionRecord) : FinalMetrics :=
  let webcamMetrics := webcamEntries session.interactions
  if webcamMetrics.isEmpty then
    { engagementScore := 0
      attentionRate := 0
      avgPostureScore := none
      avgBlinkRate := 0
      distractionCount := 0
      durationSeconds := session.duration_seconds.getD 0
      totalMetricsRecorded := 0
      totalHighlights := none }
  else
    let totalMetrics := webcamMetrics.length
    let st := webcamMetrics.foldl stepMetric initAggState
    let attentionRate : ℤ := jround ((st.focusedCount : ℚ) / (totalMetrics : ℚ) * 100)
    let avgPostureScore : ℚ := st.postureScoreSum / (totalMetrics : ℚ)
    let avgBlinkRate : ℤ := jround (st.totalBlinkRateSum / (totalMetrics : ℚ))
    let blinkComplianceScore := calculateBlinkCompliance (avgBlinkRate : ℚ)
    let engagementScore : ℤ :=
      jround ((attentionRate : ℚ) * 0.5 + avgPostureScore * 0.3 + blinkComplianceScore * 0.2)
    { engagementScore := min 100 (max 0 engagementScore)
      attentionRate := attentionRate
      avgPostureScore := some (jround avgPostureScore)
      avgBlinkRate := avgBlinkRate
      distractionCount := st.distractionCount
      durationSeconds := session.duration_seconds.getD 0
      totalMetricsRecorded := totalMetrics
      totalHighlights :=
        some (session.interactions.filter (fun i => i = Interaction.highlight)).length }

/-! ### Lemmas: the forEach fold versus direct counts and sums -/

theorem foldl_stepMetric_focusedCount (l : List WebcamData) :
    ∀ st : AggState,
      (l.foldl stepMetric st).focusedCount =
        st.focusedCount + l.countP (fun d => d.lookingAtScreen) := by
  induction l with
  | nil => intro st; simp
  | cons d tl ih =>
    intro st
    simp only [List.foldl_cons, ih, List.countP_cons, stepMetric]
    cases d.lookingAtScreen <;> simp [Nat.add_comm, Nat.add_assoc, Nat.add_left_comm]

theorem foldl_stepMetric_postureSum (l : List WebcamData) :
    ∀ st : AggState,
      (l.foldl stepMetric st).postureScoreSum =
        st.postureScoreSum + (l.map (fun d => d.postureScore)).sum := by
  induction l with
  | nil => intro st; simp
  | cons d tl ih =>
    intro st
    simp only [List.foldl_cons, ih, List.map_cons, List.sum_cons, stepMetric]
    ring

theorem foldl_stepMetric_blinkSum (l : List WebcamData) :
    ∀ st : AggState,
      (l.foldl stepMetric st).totalBlinkRateSum =
        st.totalBlinkRateSum + (l.map (fun d => d.blinkRate)).sum := by
  induction l with
  | nil => intro st; simp
  | cons d tl ih =>
    intro st
    simp only [List.foldl_cons, ih, List.map_cons, List.sum_cons, stepMetric]
    ring

/-- Count of rising edges of a boolean sequence given the value at the
position before the sequence starts. -/
def countTrans (prev : Bool) : List Bool → ℕ
  | [] => 0
  | b :: tl => (if b && !prev then 1 else 0) + countTrans b tl

/-- Number of positions whose value is `true` while the previous position
(the position before the first sample counting as `false`) is not. -/
def risingEdges (l : List Bool) : ℕ :=
  ((false :: l).zip l).countP fun p => p.2 && !p.1

theorem stepMetric_phoneFlag (st : AggState) (d : WebcamData) :
    (stepMetric st d).phoneDetectedFlag = d.hasPhone := by
  cases hd : d.hasPhone <;> cases hf : st.phoneDetectedFlag <;>
    simp [stepMetric, hd, hf]

theorem foldl_stepMetric_distraction (l : List WebcamData) :
    ∀ st : AggState,
      (l.foldl stepMetric st).distractionCount =
        st.distractionCount +
          countTrans st.phoneDetectedFlag (l.map (fun d => d.hasPhone)) := by
  induction l with
  | nil => intro st; simp [countTrans]
  | cons d tl ih =>
    intro st
    simp only [List.foldl_cons, ih, stepMetric_phoneFlag, List.map_cons, countTrans]
    simp only [stepMetric]
    omega

theorem countTrans_eq_zip_countP (l : List Bool) :
    ∀ prev : Bool,
      countTrans prev l = ((prev :: l).zip l).countP (fun p => p.2 && !p.1) := by
  induction l with
  | nil => intro prev; simp [countTrans]
  | cons b tl ih =>
    intro prev
    simp only [countTrans, ih b, List.zip_cons_cons, List.countP_cons]
    cases b <;> cases prev <;> simp [Nat.add_comm]

/-! ### Claim theorems for nlpService.js -/

/-- C1: for a session with a non-empty webcam sample set, the returned
`engagementScore` is `round(attentionRate*0.5 + avgPostureScore*0.3 +
complianceScore*0.2)` clamped to [0,100], where
`attentionRate = round(100 * focusedCount / totalSamples)`; and for every
sample set the returned `engagementScore` lies in [0,100]. -/
theorem engagementScore_formula_and_bounds :
    (∀ session : SessionRecord, webcamEntries session.interactions ≠ [] →
      (calculateFinalMetrics session).engagementScore =
        min 100 (max 0 (jround (
          ((jround (100 * ((webcamEntries session.interactions).countP
                (fun d => d.lookingAtScreen) : ℚ)
              / ((webcamEntries session.interactions).length : ℚ)) : ℚ)) * 0.5
          + ((webcamEntries session.interactions).map (fun d => d.postureScore)).sum
              / ((webcamEntries session.interactions).length : ℚ) * 0.3
          + calculateBlinkCompliance
              ((jround (((webcamEntries session.interactions).map (fun d => d.blinkRate)).sum
                / ((webcamEntries session.interactions).length : ℚ)) : ℚ)) * 0.2))))
    ∧ (∀ session : SessionRecord,
        0 ≤ (calculateFinalMetrics session).engagementScore ∧
        (calculateFinalMetrics session).engagementScore ≤ 100) := by
  constructor
  · intro s hne
    have hE : (webcamEntries s.interactions).isEmpty = false := by
      simpa [List.isEmpty_iff] using hne
    have hcomm : ((webcamEntries s.interactions).countP
          (fun d => d.lookingAtScreen) : ℚ) / ((webcamEntries s.interactions).length : ℚ) * 100
        = 100 * ((webcamEntries s.interactions).countP
          (fun d => d.lookingAtScreen) : ℚ) / ((webcamEntries s.interactions).length : ℚ) := by
      ring
    simp only [calculateFinalMetrics, hE, Bool.false_eq_true, if_false,
      foldl_stepMetric_focusedCount, foldl_stepMetric_postureSum,
      foldl_stepMetric_blinkSum, initAggState, Nat.zero_add, zero_add, hcomm]
  · intro s
    simp only [calculateFinalMetrics]
    by_cases hE : (webcamEntries s.interactions).isEmpty
    · simp [hE]
    · simp only [hE, Bool.false_eq_true, if_false]
      refine ⟨le_min (by norm_num) (le_max_left _ _), min_le_left _ _⟩

/-- C1 witness: a concrete one-sample session, with the engagement formula
evaluated. -/
theorem engagementScore_formula_witness :
    (calculateFinalMetrics
        ⟨[Interaction.webcam ⟨true, 80, 20, false⟩], some 60⟩).engagementScore =
      min 100 (max 0 (jround (((jround (100 * (1 : ℚ) / 1)) : ℚ) * 0.5
        + (80 : ℚ) / 1 * 0.3 + calculateBlinkCompliance ((jround ((20 : ℚ) / 1)) : ℚ) * 0.2)) ) := by
  have h := engagementScore_formula_and_bounds.1
    ⟨[Interaction.webcam ⟨true, 80, 20, false⟩], some 60⟩ (by decide)
  simpa [webcamEntries] using h

/-- C2: a session whose interactions contain no webcam sample yields the
zero-default aggregate (no exception is possible: the embedding is a total
function), with `durationSeconds` still read from the session record. -/
theorem calculateFinalMetrics_empty :
    ∀ session : SessionRecord, webcamEntries session.interactions = [] →
      (calculateFinalMetrics session).engagementScore = 0 ∧
      (calculateFinalMetrics session).attentionRate = 0 ∧
      (calculateFinalMetrics session).avgBlinkRate = 0 ∧
      (calculateFinalMetrics session).distractionCount = 0 ∧
      (calculateFinalMetrics session).totalMetricsRecorded = 0 ∧
      (calculateFinalMetrics session).durationSeconds = session.duration_seconds.getD 0 := by
  intro s h
  simp [calculateFinalMetrics, h]

/-- C2 witness: a concrete webcam-free session. -/
theorem calculateFinalMetrics_empty_witness :
    (calculateFinalMetrics ⟨[Interaction.highlight], some 42⟩).engagementScore = 0 ∧
    (calculateFinalMetrics ⟨[Interaction.highlight], some 42⟩).attentionRate = 0 ∧
    (calculateFinalMetrics ⟨[Interaction.highlight], some 42⟩).avgBlinkRate = 0 ∧
    (calculateFinalMetrics ⟨[Interaction.highlight], some 42⟩).distractionCount = 0 ∧
    (calculateFinalMetrics ⟨[Interaction.highlight], some 42⟩).totalMetricsRecorded = 0 ∧
    (calculateFinalMetrics ⟨[Interaction.highlight], some 42⟩).durationSeconds = 42 := by
  simpa using calculateFinalMetrics_empty ⟨[Interaction.highlight], some 42⟩ rfl

/-- C3: `distractionCount` equals the number of rising edges of the
`hasPhone` sequence of the webcam samples, and the example sequence
`[false, true, true, false, true]` has 2 rising edges. -/
theorem distractionCount_counts_rising_edges :
    (∀ session : SessionRecord,
      (calculateFinalMetrics session).distractionCount =
        risingEdges ((webcamEntries session.interactions).map (fun d => d.hasPhone)))
    ∧ risingEdges [false, true, true, false, true] = 2 := by
  refine ⟨fun s => ?_, by decide⟩
  by_cases hE : (webcamEntries s.interactions).isEmpty
  · rw [List.isEmpty_iff] at hE
    simp [calculateFinalMetrics, hE, risingEdges]
  · have hE' : (webcamEntries s.interactions).isEmpty = false := by
      simpa using hE
    simp only [calculateFinalMetrics, hE', Bool.false_eq_true, if_false,
      foldl_stepMetric_distraction, initAggState, Nat.zero_add]
    rw [risingEdges, countTrans_eq_zip_countP]

/-- C4: the blink-rate compliance score is 100 inside [15,25] and otherwise
`max 0 (100 * (1 - min dist 50 / 50))` for `dist` the distance to the nearer
bound; with the concrete values at 20, 15, 25, 0 and 100. -/
theorem blinkCompliance_spec :
    (∀ b : ℚ, 0 ≤ b →
      calculateBlinkCompliance b =
        if 15 ≤ b ∧ b ≤ 25 then 100
        else max 0 (100 * (1 - min (min |b - 15| |b - 25|) 50 / 50)))
    ∧ calculateBlinkCompliance 20 = 100
    ∧ calculateBlinkCompliance 15 = 100
    ∧ calculateBlinkCompliance 25 = 100
    ∧ calculateBlinkCompliance 0 = 70
    ∧ calculateBlinkCompliance 100 = 0 := by
  have key : ∀ D : ℚ, min (D / 50) 1 = min D 50 / 50 := by
    intro D
    rw [← min_div_div_right (show (0:ℚ) ≤ 50 by norm_num)]
    norm_num
  have hmain : ∀ b : ℚ,
      calculateBlinkCompliance b =
        if 15 ≤ b ∧ b ≤ 25 then 100
        else max 0 (100 * (1 - min (min |b - 15| |b - 25|) 50 / 50)) := by
    intro b
    simp only [calculateBlinkCompliance, IDEAL_BLINK_RATE_MIN, IDEAL_BLINK_RATE_MAX, key]
  refine ⟨fun b _ => hmain b, ?_, ?_, ?_, ?_, ?_⟩ <;>
    rw [hmain] <;>
    norm_num [min_def, max_def, abs_of_nonpos, abs_of_nonneg]

/-- C4 witness: compliance at blink rate 30 (outside the ideal band). -/
theorem blinkCompliance_spec_witness : calculateBlinkCompliance 30 = 90 := by
  have h := blinkCompliance_spec.1 30 (by norm_num)
  rw [h]
  norm_num

/-! ### models/Metric.js : data model

One metric document, restricted to the fields read by `getSessionSummary`
and `detectAnomalies`.  Nested JS paths (`presence.detected`,
`distraction.detected`, `posture.score`, ...) are flattened; enum-valued
strings stay strings.  `timestamp` is in milliseconds since the epoch. -/
structure MetricRec where
  timestamp : ℤ
  presence_detected : Bool
  engagement_score : ℚ
  distraction_detected : Bool
  distraction_type : String
  posture_score : ℚ
  posture_quality : String
  blink_rate : ℚ
  eye_strain_risk : String
  fatigue_level : ℚ
  emotion : String
deriving DecidableEq

/-- The metricSchema default values of the modelled fields. -/
def defaultMetric : MetricRec :=
  { timestamp := 0, presence_detected := false, engagement_score := 0,
    distraction_detected := false, distraction_type := "none",
    posture_score := 0, posture_quality := "good", blink_rate := 0,
    eye_strain_risk := "low", fatigue_level := 0, emotion := "neutral" }

instance : Inhabited MetricRec := ⟨defaultMetric⟩

/-- A metric document with the schema's default values in every field the
claims do not vary. -/
def mkMetric (ts : ℤ) (presence : Bool) (score : ℚ) : MetricRec :=
  { defaultMetric with
      timestamp := ts, presence_detected := presence, engagement_score := score }

/-- The summary object built by `Metric.getSessionSummary` (the
`emotion_distribution` JS object is modelled as its key-to-count map). -/
structure SessionSummary where
  total_datapoints : ℕ
  duration_minutes : ℚ
  avg_engagement : ℚ
  max_engagement : ℚ
  min_engagement : ℚ
  presence_rate : ℚ
  distraction_count : ℕ
  distraction_rate : ℚ
  distraction_types : List String
  avg_posture_score : ℚ
  poor_posture_count : ℕ
  avg_blink_rate : ℚ
  eye_strain_alerts : ℕ
  avg_fatigue : ℚ
  emotion_distribution : String → ℕ
  engagement_timeline : List (ℤ × ℚ)

/-- `Metric.getSessionSummary(sessionId)` as a function of the session's
metric documents (the `find` query result, in timestamp order): `null` when
there are no documents, otherwise the aggregate object. -/
def getSessionSummary (metrics : List MetricRec) : Option SessionSummary :=
  if metrics.length = 0 then none
  else some
    { total_datapoints := metrics.length
      duration_minutes :=
        (((metrics.getD (metrics.length - 1) default).timestamp
          - (metrics.getD 0 default).timestamp : ℤ) : ℚ) / 60000
      avg_engagement := (metrics.map (fun m => m.engagement_score)).sum / metrics.length
      max_engagement := ((metrics.map (fun m => m.engagement_score)).max?).getD 0
      min_engagement := ((metrics.map (fun m => m.engagement_score)).min?).getD 0
      presence_rate :=
        ((metrics.filter (fun m => m.presence_detected)).length : ℚ) / metrics.length * 100
      distraction_count := (metrics.filter (fun m => m.distraction_detected)).length
      distraction_rate :=
        ((metrics.filter (fun m => m.distraction_detected)).length : ℚ) / metrics.length * 100
      distraction_types :=
        ((metrics.filter (fun m => m.distraction_detected)).map
          (fun m => m.distraction_type)).eraseDups
      avg_posture_score := (metrics.map (fun m => m.posture_score)).sum / metrics.length
      poor_posture_count :=
        (metrics.filter (fun m =>
          m.posture_quality == "poor" || m.posture_quality == "very_poor")).length
      avg_blink_rate := (metrics.map (fun m => m.blink_rate)).sum / metrics.length
      eye_strain_alerts :=
        (metrics.filter (fun m =>
          m.eye_strain_risk == "high" || m.eye_strain_risk == "critical")).length
      avg_fatigue := (metrics.map (fun m => m.fatigue_level)).sum / metrics.length
      emotion_distribution := fun e => (metrics.filter (fun m => m.emotion == e)).length
      engagement_timeline := metrics.map (fun m => (m.timestamp, m.engagement_score)) }

/-- Anomaly categories produced by `Metric.detectAnomalies`. -/
inductive AnomalyType where
  | engagement_drop
  | prolonged_absence
deriving DecidableEq

inductive Severity where
  | high
  | medium
  | low
deriving DecidableEq

/-- An entry of the `anomalies` array (the human-readable `details` string is
not modelled). -/
structure Anomaly where
  atype : AnomalyType
  timestamp : ℤ
  severity : Severity
deriving DecidableEq

/-- First loop of `detectAnomalies`: sudden engagement drops over adjacent
pairs (`for i = 1; i < metrics.length; i++`). -/
def engagementDropPass : List MetricRec → List Anomaly
  | m1 :: m2 :: rest =>
    (if m1.engagement_score - m2.engagement_score > 30 then
      [{ atype := .engagement_drop, timestamp := m2.timestamp,
         severity :=
           if m1.engagement_score - m2.engagement_score > 50 then .high else .medium }]
     else [])
    ++ engagementDropPass (m2 :: rest)
  | _ => []

/-- Second loop of `detectAnomalies`: the running `absenceStreak` counter,
emitting once when the counter reaches exactly 5. -/
def absencePass : List MetricRec → ℕ → List Anomaly
  | [], _ => []
  | m :: rest, absenceStreak =>
    if !m.presence_detected then
      (if absenceStreak + 1 = 5 then
        [{ atype := .prolonged_absence, timestamp := m.timestamp, severity := .high }]
       else [])
      ++ absencePass rest (absenceStreak + 1)
    else absencePass rest 0

/-- `Metric.detectAnomalies(sessionId)` over the session's metric documents:
all engagement-drop anomalies followed by all prolonged-absence anomalies. -/
def detectAnomalies (metrics : List MetricRec) : List Anomaly :=
  engagementDropPass metrics ++ absencePass metrics 0

/-! ### Anomaly-detection specifications and lemmas -/

/-- Shorthand for a sample with no detected presence. -/
def absent (m : MetricRec) : Bool := !m.presence_detected

/-- Spec view of the engagement-drop loop: over each adjacent pair, emit an
anomaly at the second element's timestamp exactly when the drop exceeds 30,
with severity high when it exceeds 50 and medium otherwise. -/
def engagementDropSpec (metrics : List MetricRec) : List Anomaly :=
  (metrics.zip metrics.tail).filterMap fun (p : MetricRec × MetricRec) =>
    if p.1.engagement_score - p.2.engagement_score > 30 then
      some { atype := .engagement_drop, timestamp := p.2.timestamp,
             severity :=
               if p.1.engagement_score - p.2.engagement_score > 50 then .high else .medium }
    else none

def paAnomaly (m : MetricRec) : Anomaly :=
  { atype := .prolonged_absence, timestamp := m.timestamp, severity := .high }

theorem length_dropWhile_le (p : MetricRec → Bool) (l : List MetricRec) :
    (l.dropWhile p).length ≤ l.length :=
  (List.dropWhile_suffix p).sublist.length_le

/-- Spec view of the prolonged-absence loop, phrased per maximal contiguous
run of absent samples: each maximal run of length at least 5 yields exactly
one high-severity anomaly, at the timestamp of the run's 5th sample, and a
shorter run yields none. -/
def prolongedAbsenceSpec : List MetricRec → List Anomaly
  | [] => []
  | m :: rest =>
    if absent m then
      (if 5 ≤ (m :: rest.takeWhile absent).length then
        [paAnomaly ((m :: rest.takeWhile absent).getD 4 default)]
       else [])
      ++ prolongedAbsenceSpec (rest.dropWhile absent)
    else prolongedAbsenceSpec rest
termination_by l => l.length
decreasing_by
  · exact Nat.lt_succ_of_le (length_dropWhile_le absent rest)
  · exact Nat.lt_succ_self _

theorem absencePass_atype (l : List MetricRec) :
    ∀ (k : ℕ) (a : Anomaly),
      a ∈ absencePass l k → a.atype = AnomalyType.prolonged_absence := by
  induction l with
  | nil => intro k a h; simp [absencePass] at h
  | cons m rest ih =>
    intro k a h
    rw [absencePass] at h
    rcases Bool.eq_false_or_eq_true m.presence_detected with hp | hp
    · rw [if_neg (show ¬(!m.presence_detected) = true by rw [hp]; simp)] at h
      exact ih 0 a h
    · rw [if_pos (show (!m.presence_detected) = true by simp [hp])] at h
      rcases List.mem_append.mp h with h1 | h2
      · by_cases hk : k + 1 = 5
        · rw [if_pos hk] at h1
          rw [List.mem_singleton.mp h1]
        · rw [if_neg hk] at h1
          simp at h1
      · exact ih (k + 1) a h2

theorem engagementDropPass_atype :
    ∀ (l : List MetricRec) (a : Anomaly),
      a ∈ engagementDropPass l → a.atype = AnomalyType.engagement_drop
  | [], a, h => by simp [engagementDropPass] at h
  | [m], a, h => by simp [engagementDropPass] at h
  | m1 :: m2 :: rest, a, h => by
    rw [engagementDropPass] at h
    rcases List.mem_append.mp h with h1 | h2
    · by_cases hgt : m1.engagement_score - m2.engagement_score > 30
      · simp only [if_pos hgt, List.mem_singleton] at h1
        rw [h1]
      · simp [hgt] at h1
    · exact engagementDropPass_atype (m2 :: rest) a h2

theorem engagementDropPass_eq_spec :
    ∀ l : List MetricRec, engagementDropPass l = engagementDropSpec l
  | [] => rfl
  | [m] => rfl
  | m1 :: m2 :: rest => by
    rw [engagementDropPass, engagementDropPass_eq_spec (m2 :: rest)]
    simp only [engagementDropSpec, List.tail_cons, List.zip_cons_cons, List.filterMap_cons]
    by_cases hgt : m1.engagement_score - m2.engagement_score > 30
    · simp [hgt]
    · simp [hgt]

theorem absencePass_lead (l : List MetricRec) :
    ∀ k : ℕ,
      absencePass l k =
        (if k < 5 ∧ 5 ≤ k + (l.takeWhile absent).length
         then [paAnomaly ((l.takeWhile absent).getD (4 - k) default)] else [])
        ++ absencePass (l.dropWhile absent) 0 := by
  induction l with
  | nil =>
    intro k
    simp only [List.takeWhile_nil, List.dropWhile_nil, List.length_nil, Nat.add_zero]
    rw [if_neg (by omega)]
    simp [absencePass]
  | cons m rest ih =>
    intro k
    rcases Bool.eq_false_or_eq_true m.presence_detected with hp | hp
    · -- presence detected: the streak resets; the leading absent run is empty
      have habs : absent m = false := by simp [absent, hp]
      rw [absencePass, if_neg (show ¬(!m.presence_detected) = true by simp [hp])]
      simp only [List.takeWhile_cons, List.dropWhile_cons, habs, Bool.false_eq_true,
        if_false, List.length_nil, Nat.add_zero]
      rw [if_neg (by omega)]
      rw [absencePass, if_neg (show ¬(!m.presence_detected) = true by simp [hp])]
      simp
    · -- an absent sample extends the leading run
      have habs : absent m = true := by simp [absent, hp]
      rw [absencePass, if_pos (show (!m.presence_detected) = true by simp [hp])]
      rw [ih (k + 1)]
      simp only [List.takeWhile_cons, List.dropWhile_cons, habs, if_true]
      rw [← List.append_assoc]
      congr 1
      by_cases hk4 : k = 4
      · subst hk4
        rw [if_pos rfl, if_neg (by omega),
          if_pos ⟨by omega, by simp only [List.length_cons]; omega⟩]
        simp [paAnomaly]
      · by_cases hk5 : 5 ≤ k
        · rw [if_neg (by omega), if_neg (by omega), if_neg (by omega)]
          simp
        · -- k ≤ 3
          have hk3 : k ≤ 3 := by omega
          rw [if_neg (by omega)]
          by_cases hlen : 5 ≤ k + 1 + (rest.takeWhile absent).length
          · rw [if_pos ⟨by omega, hlen⟩,
              if_pos ⟨by omega, by simp only [List.length_cons]; omega⟩]
            rw [show 4 - k = (4 - (k + 1)) + 1 by omega]
            simp [List.getD_cons_succ]
          · rw [if_neg (by omega), if_neg (by simp only [List.length_cons]; omega)]
            simp

theorem absencePass_zero_eq_spec :
    ∀ (n : ℕ) (l : List MetricRec), l.length ≤ n →
      absencePass l 0 = prolongedAbsenceSpec l := by
  intro n
  induction n with
  | zero =>
    intro l hl
    have hnil : l = [] := List.length_eq_zero.mp (Nat.le_zero.mp hl)
    subst hnil
    simp [absencePass, prolongedAbsenceSpec]
  | succ n ihn =>
    intro l hl
    cases l with
    | nil => simp [absencePass, prolongedAbsenceSpec]
    | cons m rest =>
      rcases Bool.eq_false_or_eq_true m.presence_detected with hp | hp
      · have habs : absent m = false := by simp [absent, hp]
        rw [absencePass, if_neg (show ¬(!m.presence_detected) = true by simp [hp]),
          prolongedAbsenceSpec, if_neg (by simp [habs])]
        exact ihn rest (by simp only [List.length_cons] at hl; omega)
      · have habs : absent m = true := by simp [absent, hp]
        rw [absencePass_lead (m :: rest) 0, prolongedAbsenceSpec, if_pos habs]
        simp only [List.takeWhile_cons, List.dropWhile_cons, habs, if_true, Nat.zero_add]
        have hlen : (rest.dropWhile absent).length ≤ n :=
          le_trans (length_dropWhile_le absent rest)
            (by simp only [List.length_cons] at hl; omega)
        rw [ihn (rest.dropWhile absent) hlen]
        norm_num

/-- C5: the prolonged-absence anomalies of `detectAnomalies` are exactly one
high-severity anomaly per maximal contiguous run of at least 5 absent
samples, at the timestamp of the run's 5th sample (`prolongedAbsenceSpec`),
and nothing more within the run. -/
theorem detectAnomalies_prolonged_absence :
    ∀ metrics : List MetricRec,
      (detectAnomalies metrics).filter
          (fun a => decide (a.atype = AnomalyType.prolonged_absence)) =
        prolongedAbsenceSpec metrics := by
  intro ms
  rw [detectAnomalies, List.filter_append]
  have h1 : (engagementDropPass ms).filter
      (fun a => decide (a.atype = AnomalyType.prolonged_absence)) = [] := by
    rw [List.filter_eq_nil_iff]
    intro a ha
    have := engagementDropPass_atype ms a ha
    simp [this]
  have h2 : (absencePass ms 0).filter
      (fun a => decide (a.atype = AnomalyType.prolonged_absence)) = absencePass ms 0 := by
    rw [List.filter_eq_self]
    intro a ha
    have := absencePass_atype ms 0 a ha
    simp [this]
  rw [h1, h2, List.nil_append]
  exact absencePass_zero_eq_spec ms.length ms le_rfl

/-- C6: an engagement-drop anomaly is emitted at the timestamp of the second
element of an adjacent pair exactly when the drop exceeds 30 points, with
severity high above 50 and medium otherwise; adjacent scores [80,40] give one
medium anomaly and [90,20] one high anomaly. -/
theorem detectAnomalies_engagement_drop :
    (∀ metrics : List MetricRec,
      (detectAnomalies metrics).filter
          (fun a => decide (a.atype = AnomalyType.engagement_drop)) =
        engagementDropSpec metrics)
    ∧ detectAnomalies [mkMetric 0 true 80, mkMetric 1 true 40] =
        [{ atype := .engagement_drop, timestamp := 1, severity := .medium }]
    ∧ detectAnomalies [mkMetric 0 true 90, mkMetric 1 true 20] =
        [{ atype := .engagement_drop, timestamp := 1, severity := .high }] := by
  refine ⟨fun ms => ?_, ?_, ?_⟩
  · rw [detectAnomalies, List.filter_append]
    have h1 : (engagementDropPass ms).filter
        (fun a => decide (a.atype = AnomalyType.engagement_drop)) =
          engagementDropPass ms := by
      rw [List.filter_eq_self]
      intro a ha
      have := engagementDropPass_atype ms a ha
      simp [this]
    have h2 : (absencePass ms 0).filter
        (fun a => decide (a.atype = AnomalyType.engagement_drop)) = [] := by
      rw [List.filter_eq_nil_iff]
      intro a ha
      have := absencePass_atype ms 0 a ha
      simp [this]
    rw [h1, h2, List.append_nil]
    exact engagementDropPass_eq_spec ms
  · norm_num [detectAnomalies, engagementDropPass, absencePass, mkMetric, defaultMetric]
  · norm_num [detectAnomalies, engagementDropPass, absencePass, mkMetric, defaultMetric]

/-! ### GET /api/metrics/session/:sessionId/summary (routes/metrics) -/

/-- The summary route handler, as a function of whether
`Session.findOne({_id, user_id})` found an owned session and of the
session's metric documents.  The result is the HTTP status code paired with
the summary payload (`none` for the error responses). -/
def summaryHandler (sessionOwned : Bool) (metrics : List MetricRec) :
    ℕ × Option SessionSummary :=
  if ¬ sessionOwned then (404, none)
  else
    match getSessionSummary metrics with
    | none => (404, none)
    | some s => (200, some s)

/-- C9 counterexample: on an owned session with zero recorded samples the
summary route responds 404 (`No metrics found for this session`), not a 200
with an empty default payload as the claim states. -/
theorem summaryHandler_empty_is_404 :
    (summaryHandler true []).1 = 404 ∧ (summaryHandler true []).1 ≠ 200 := by
  constructor
  · rfl
  · intro h
    simp [summaryHandler, getSessionSummary] at h

/-- C9 amended: `getSessionSummary` returns `null` exactly when the session
has no samples, and the summary route on an owned session responds 404
exactly in that case (200 with the summary otherwise) - a no-data summary
request is an error response, not an empty-default success. -/
theorem summaryHandler_amended :
    ∀ metrics : List MetricRec,
      (getSessionSummary metrics = none ↔ metrics = [])
      ∧ ((summaryHandler true metrics).1 = 404 ↔ metrics = [])
      ∧ (metrics ≠ [] → (summaryHandler true metrics).1 = 200) := by
  intro ms
  have hs : getSessionSummary ms = none ↔ ms = [] := by
    rw [getSessionSummary]
    cases ms with
    | nil => simp
    | cons m rest => simp
  refine ⟨hs, ?_, ?_⟩
  · cases ms with
    | nil => simp [summaryHandler, getSessionSummary]
    | cons m rest =>
      rw [summaryHandler]
      have : getSessionSummary (m :: rest) ≠ none := by
        simp [hs]
      cases hg : getSessionSummary (m :: rest) with
      | none => exact absurd hg this
      | some s => simp [hg]
  · intro hne
    rw [summaryHandler]
    have : getSessionSummary ms ≠ none := by
      simp [hs, hne]
    cases hg : getSessionSummary ms with
    | none => exact absurd hg this
    | some s => simp [hg]

/-- C9 amended witness: a one-sample session summary request succeeds with
status 200. -/
theorem summaryHandler_amended_witness :
    (summaryHandler true [mkMetric 0 true 50]).1 = 200 :=
  (summaryHandler_amended [mkMetric 0 true 50]).2.2 (by simp)

/-! ### GET /api/analytics/analytics : the day-streak (routes/analytics.js)

Calendar dates are modelled as integer day numbers (the JS code normalises
each start time with `setHours(0,0,0,0)` and divides millisecond differences
by 86400000, so on midnight-aligned dates `dayDiff` is the integer day
difference).  The JS `Set` of dates followed by a descending numeric sort is
modelled as `dedup` followed by a descending `insertionSort`; since the list
is sorted immediately afterwards, the order in which duplicates are removed
is irrelevant. -/

/-- The `for (const timestamp of sortedUniqueDates)` walk: skip future dates
(`dayDiff < 0` continues), count a date at distance 0 or 1 from the cursor
and move the cursor back one day, stop at the first larger gap. -/
def streakLoop : List ℤ → ℤ → ℕ → ℕ
  | [], _, currentStreak => currentStreak
  | d :: rest, currentDate, currentStreak =>
    let dayDiff := currentDate - d
    if dayDiff < 0 then streakLoop rest currentDate currentStreak
    else if dayDiff = 0 ∨ dayDiff = 1 then
      streakLoop rest (currentDate - 1) (currentStreak + 1)
    else currentStreak

/-- The dashboard streak computation: walk the distinct session days in
descending order starting from today, then zero the result when the most
recent session day is more than 1 day before today (or there is none). -/
def computeStreak (today : ℤ) (sessionDates : List ℤ) : ℕ :=
  let sortedUniqueDates := (sessionDates.dedup).insertionSort (fun a b => b ≤ a)
  let s := streakLoop sortedUniqueDates today 0
  match sortedUniqueDates.head? with
  | none => 0
  | some latest => if today - latest > 1 then 0 else s

/-- C7 counterexample: sessions on today and the day before yesterday (a gap
at yesterday) give streak 2, not the claimed 1: the walk also accepts a date
at distance 1 from the cursor, so a single missing day does not stop it. -/
theorem computeStreak_gap_counterexample :
    computeStreak 0 [0, -2] = 2 ∧ computeStreak 0 [0, -2] ≠ 1 := by
  refine ⟨by decide, by decide⟩

/-- C7 amended: the walk tolerates single-day gaps (each accepted date may be
0 or 1 days older than the cursor, and the cursor then moves back one day),
so {today, yesterday, day-before} gives 3 and {today, day-before} gives 2;
the streak is 0 whenever every session day is more than 1 day before today. -/
theorem computeStreak_amended :
    (∀ (today : ℤ) (dates : List ℤ),
      (∀ d ∈ dates, today - d > 1) → computeStreak today dates = 0)
    ∧ computeStreak 0 [0, -1, -2] = 3
    ∧ computeStreak 0 [0, -2] = 2 := by
  refine ⟨?_, by decide, by decide⟩
  intro today dates h
  rw [computeStreak]
  cases hS : ((dates.dedup).insertionSort (fun a b => b ≤ a)).head? with
  | none => simp [hS]
  | some latest =>
    have hmem : latest ∈ (dates.dedup).insertionSort (fun a b => b ≤ a) := by
      cases hl : (dates.dedup).insertionSort (fun a b => b ≤ a) with
      | nil => rw [hl] at hS; cases hS
      | cons a t =>
        rw [hl] at hS
        injection hS with ha
        rw [ha]
        exact List.mem_cons_self _ _
    have hdates : latest ∈ dates :=
      List.mem_dedup.mp ((List.mem_insertionSort _).mp hmem)
    have hgt := h latest hdates
    simp only [hS]
    rw [if_pos hgt]

/-- C7 amended witness: all sessions more than a day old give streak 0. -/
theorem computeStreak_amended_witness : computeStreak 10 [3, 5] = 0 :=
  computeStreak_amended.1 10 [3, 5] (by decide)

/-! ### GET /api/analytics/productivity-score (routes/analytics.js)

Inputs as gathered by the route: `totalSessions` completed sessions and
`totalTime` minutes in the window, the engagement aggregate
(`avg_engagement`, `presence_rate`, `distraction_rate`, each `|| 0`-defaulted
when absent), and the highlight/annotation counts. -/

/-- `sessionScore = Math.min(100, (totalSessions / days) * 20)`. -/
def sessionScoreOf (totalSessions days : ℕ) : ℚ :=
  min 100 ((totalSessions : ℚ) / (days : ℚ) * 20)

/-- `timeScore = Math.min(100, (totalTime / (days * 60)) * 100)`. -/
def timeScoreOf (totalTime : ℚ) (days : ℕ) : ℚ :=
  min 100 (totalTime / ((days : ℚ) * 60) * 100)

/-- `focusScore = Math.max(0, 100 - distraction_rate * 100)`. -/
def focusScoreOf (distractionRate : ℚ) : ℚ :=
  max 0 (100 - distractionRate * 100)

/-- `activityScore = Math.min(100, ((highlights + annotations) / days) * 5)`. -/
def activityScoreOf (highlights annotations days : ℕ) : ℚ :=
  min 100 (((highlights : ℚ) + (annotations : ℚ)) / (days : ℚ) * 5)

/-- The letter-grade thresholds applied to the raw overall score. -/
def gradeOf (overall : ℚ) : String :=
  if 90 ≤ overall then "A+"
  else if 85 ≤ overall then "A"
  else if 80 ≤ overall then "A-"
  else if 70 ≤ overall then "B"
  else if 60 ≤ overall then "C"
  else "D"

/-- The `productivityScore` response object (components flattened, all
rounded as in the route). -/
structure ProductivityScore where
  overall_score : ℤ
  grade : String
  session_consistency : ℤ
  study_time : ℤ
  engagement : ℤ
  presence : ℤ
  focus : ℤ
  activity : ℤ
deriving DecidableEq

/-- The productivity-score handler after its database reads: the six
sub-scores, the weighted overall score, the grade, and the rounded response
fields. -/
def productivityHandler (totalSessions days : ℕ)
    (totalTime avgEngagement presenceRate distractionRate : ℚ)
    (highlights annotations : ℕ) : ProductivityScore :=
  let sessionScore := sessionScoreOf totalSessions days
  let timeScore := timeScoreOf totalTime days
  let engagementScore := avgEngagement
  let presenceScore := presenceRate * 100
  let focusScore := focusScoreOf distractionRate
  let activityScore := activityScoreOf highlights annotations days
  let overall_score := sessionScore * 0.15 + timeScore * 0.20 + engagementScore * 0.25
    + presenceScore * 0.15 + focusScore * 0.15 + activityScore * 0.10
  { overall_score := jround overall_score
    grade := gradeOf overall_score
    session_consistency := jround sessionScore
    study_time := jround timeScore
    engagement := jround engagementScore
    presence := jround presenceScore
    focus := jround focusScore
    activity := jround activityScore }

/-- C8 counterexample: exactly 1 completed session per day scores 20 on the
session-frequency component, not 100 (the `* 20` factor means 5 sessions per
day are needed for 100): 7 sessions over a 7-day period give component 20. -/
theorem sessionScore_one_per_day_counterexample :
    (productivityHandler 7 7 0 0 0 0 0 0).session_consistency = 20
    ∧ (productivityHandler 7 7 0 0 0 0 0 0).session_consistency ≠ 100 := by
  have h : sessionScoreOf 7 7 = 20 := by
    rw [sessionScoreOf]
    norm_num [min_def]
  constructor
  · show jround (sessionScoreOf 7 7) = 20
    rw [h, jround]
    norm_num
  · show jround (sessionScoreOf 7 7) ≠ 100
    rw [h, jround]
    norm_num

/-- C8 amended: the overall productivity score is the 0.15/0.20/0.25/0.15/
0.15/0.10-weighted sum of the six sub-scores, each sub-score is normalized to
[0,100] (for in-range aggregate inputs), the session-frequency component
scores 20 at 1 session per day and reaches 100 at 5 sessions per day, and the
grade thresholds are >=90 A+, >=85 A, >=80 A-, >=70 B, >=60 C, else D. -/
theorem productivityScore_amended :
    (∀ (totalSessions days : ℕ)
        (totalTime avgEngagement presenceRate distractionRate : ℚ)
        (highlights annotations : ℕ),
      (productivityHandler totalSessions days totalTime avgEngagement presenceRate
          distractionRate highlights annotations).overall_score =
        jround (sessionScoreOf totalSessions days * 0.15 + timeScoreOf totalTime days * 0.20
          + avgEngagement * 0.25 + presenceRate * 100 * 0.15
          + focusScoreOf distractionRate * 0.15
          + activityScoreOf highlights annotations days * 0.10)
      ∧ (productivityHandler totalSessions days totalTime avgEngagement presenceRate
          distractionRate highlights annotations).grade =
        gradeOf (sessionScoreOf totalSessions days * 0.15 + timeScoreOf totalTime days * 0.20
          + avgEngagement * 0.25 + presenceRate * 100 * 0.15
          + focusScoreOf distractionRate * 0.15
          + activityScoreOf highlights annotations days * 0.10))
    ∧ (∀ (totalSessions days : ℕ)
        (totalTime avgEngagement presenceRate distractionRate : ℚ)
        (highlights annotations : ℕ),
        0 ≤ totalTime → 0 ≤ avgEngagement → avgEngagement ≤ 100 →
        0 ≤ presenceRate → presenceRate ≤ 1 →
        0 ≤ distractionRate → distractionRate ≤ 1 →
        (0 ≤ sessionScoreOf totalSessions days ∧ sessionScoreOf totalSessions days ≤ 100)
        ∧ (0 ≤ timeScoreOf totalTime days ∧ timeScoreOf totalTime days ≤ 100)
        ∧ (0 ≤ presenceRate * 100 ∧ presenceRate * 100 ≤ 100)
        ∧ (0 ≤ focusScoreOf distractionRate ∧ focusScoreOf distractionRate ≤ 100)
        ∧ (0 ≤ activityScoreOf highlights annotations days
            ∧ activityScoreOf highlights annotations days ≤ 100))
    ∧ (∀ days : ℕ, 0 < days →
        sessionScoreOf days days = 20 ∧ sessionScoreOf (5 * days) days = 100)
    ∧ (∀ q : ℚ,
        (90 ≤ q → gradeOf q = "A+")
        ∧ (85 ≤ q → q < 90 → gradeOf q = "A")
        ∧ (80 ≤ q → q < 85 → gradeOf q = "A-")
        ∧ (70 ≤ q → q < 80 → gradeOf q = "B")
        ∧ (60 ≤ q → q < 70 → gradeOf q = "C")
        ∧ (q < 60 → gradeOf q = "D")) := by
  refine ⟨fun _ _ _ _ _ _ _ _ => ⟨rfl, rfl⟩, ?_, ?_, ?_⟩
  · intro s d tt eng pr dr hi an htt heng0 heng100 hpr0 hpr1 hdr0 hdr1
    refine ⟨⟨?_, min_le_left _ _⟩, ⟨?_, min_le_left _ _⟩, ⟨?_, ?_⟩,
      ⟨le_max_left _ _, ?_⟩, ⟨?_, min_le_left _ _⟩⟩
    · exact le_min (by norm_num) (by positivity)
    · refine le_min (by norm_num) ?_
      have hd60 : (0:ℚ) ≤ (d : ℚ) * 60 := by positivity
      exact mul_nonneg (div_nonneg htt hd60) (by norm_num)
    · exact mul_nonneg hpr0 (by norm_num)
    · calc pr * 100 ≤ 1 * 100 := by
            exact mul_le_mul_of_nonneg_right hpr1 (by norm_num)
        _ = 100 := by norm_num
    · refine max_le (by norm_num) ?_
      have : (0:ℚ) ≤ dr * 100 := mul_nonneg hdr0 (by norm_num)
      linarith
    · exact le_min (by norm_num) (by positivity)
  · intro d hd
    have hd0 : (d : ℚ) ≠ 0 := Nat.cast_ne_zero.mpr (Nat.pos_iff_ne_zero.mp hd)
    constructor
    · rw [sessionScoreOf, div_self hd0]
      norm_num [min_def]
    · rw [sessionScoreOf, Nat.cast_mul, mul_div_assoc, div_self hd0]
      norm_num [min_def]
  · intro q
    refine ⟨fun h90 => ?_, fun h85 h90 => ?_, fun h80 h85 => ?_,
      fun h70 h80 => ?_, fun h60 h70 => ?_, fun h60 => ?_⟩
    · rw [gradeOf, if_pos h90]
    · rw [gradeOf, if_neg (by linarith), if_pos h85]
    · rw [gradeOf, if_neg (by linarith), if_neg (by linarith), if_pos h80]
    · rw [gradeOf, if_neg (by linarith), if_neg (by linarith), if_neg (by linarith),
        if_pos h70]
    · rw [gradeOf, if_neg (by linarith), if_neg (by linarith), if_neg (by linarith),
        if_neg (by linarith), if_pos h60]
    · rw [gradeOf, if_neg (by linarith), if_neg (by linarith), if_neg (by linarith),
        if_neg (by linarith), if_neg (by linarith)]

/-- C8 amended witness: concrete instances of the amended statement. -/
theorem productivityScore_amended_witness :
    sessionScoreOf 3 3 = 20 ∧ sessionScoreOf 10 2 = 100 ∧ gradeOf 92 = "A+" ∧
    (0 ≤ timeScoreOf 60 2 ∧ timeScoreOf 60 2 ≤ 100) := by
  refine ⟨(productivityScore_amended.2.2.1 3 (by norm_num)).1, ?_, ?_, ?_⟩
  · have h := (productivityScore_amended.2.2.1 2 (by norm_num)).2
    norm_num at h
    exact h
  · exact (productivityScore_amended.2.2.2 92).1 (by norm_num)
  · exact (productivityScore_amended.2.1 0 2 60 0 0 0 0 0 (by norm_num) le_rfl
      (by norm_num) le_rfl (by norm_num) le_rfl (by norm_num)).2.1

/-! ### PATCH /api/sessions/:sessionId/end (routes/sessions.js) -/

/-- The session document fields read and written by the end-session route
(models/Session.js; `metrics` is the cached aggregate, kept opaque to this
route). -/
structure StudySession where
  student_id : String
  is_active : Bool
  start_time : ℤ
  end_time : Option ℤ
  duration_seconds : Option ℤ
  metrics : Option FinalMetrics
deriving DecidableEq

/-- The four response shapes of the end-session route, with their status
codes. -/
inductive EndSessionResponse where
  | notFound
  | accessDenied
  | alreadyEnded
  | ended (duration_seconds : ℤ) (end_time : ℤ)
deriving DecidableEq

def statusOfEndResponse : EndSessionResponse → ℕ
  | .notFound => 404
  | .accessDenied => 403
  | .alreadyEnded => 400
  | .ended _ _ => 200

/-- The end-session handler: the response together with the stored session
document after the request (unchanged on every non-200 path).  `now` is the
`new Date()` taken when ending; the duration is
`Math.floor((end_time - start_time) / 1000)`. -/
def endSessionHandler (userId : String) (now : ℤ) (sess : Option StudySession) :
    EndSessionResponse × Option StudySession :=
  match sess with
  | none => (.notFound, none)
  | some s =>
    if s.student_id ≠ userId then (.accessDenied, some s)
    else if ¬ s.is_active then (.alreadyEnded, some s)
    else
      let duration : ℤ := ⌊((now - s.start_time : ℤ) : ℚ) / 1000⌋
      let s2 := { s with is_active := false, end_time := some now,
                         duration_seconds := some duration }
      (.ended duration now, some s2)

/-- C10: ending an already-ended owned session responds 400
(`Session is already ended`) and leaves the record untouched, and after a
successful end the ended record re-submitted yields exactly that 400 path -
so the active-to-ended transition happens at most once under sequential
execution. -/
theorem endSession_already_ended :
    (∀ (uid : String) (now : ℤ) (s : StudySession),
      s.student_id = uid → s.is_active = false →
        endSessionHandler uid now (some s) = (.alreadyEnded, some s)
        ∧ statusOfEndResponse .alreadyEnded = 400)
    ∧ (∀ (uid : String) (n1 n2 : ℤ) (s : StudySession),
        s.student_id = uid → s.is_active = true →
          endSessionHandler uid n2 ((endSessionHandler uid n1 (some s)).2) =
            (.alreadyEnded, (endSessionHandler uid n1 (some s)).2)) := by
  constructor
  · intro uid now s hid hact
    refine ⟨?_, rfl⟩
    rw [endSessionHandler]
    rw [if_neg (by simp [hid]), if_pos (by simp [hact])]
  · intro uid n1 n2 s hid hact
    have h1 : (endSessionHandler uid n1 (some s)).2 =
        some { s with is_active := false, end_time := some n1,
                      duration_seconds := some ⌊((n1 - s.start_time : ℤ) : ℚ) / 1000⌋ } := by
      rw [endSessionHandler]
      rw [if_neg (by simp [hid]), if_neg (by simp [hact])]
    rw [h1, endSessionHandler]
    rw [if_neg (by simp [hid]), if_pos (by simp)]

/-- C10 witness: ending a concrete already-ended session responds 400 with
the record unchanged. -/
theorem endSession_already_ended_witness :
    endSessionHandler "u1" 5000
        (some ⟨"u1", false, 0, some 900, some 0, none⟩) =
      (.alreadyEnded, some ⟨"u1", false, 0, some 900, some 0, none⟩)
    ∧ statusOfEndResponse .alreadyEnded = 400 :=
  endSession_already_ended.1 "u1" 5000 ⟨"u1", false, 0, some 900, some 0, none⟩ rfl rfl
